import Mathlib

set_option autoImplicit false

/-
Shallow embedding of the gcppubsub package (gcp_lib/lib_pubsub): a Go wrapper
around the Google Cloud Pub/Sub client. Durations are modelled as Int
nanoseconds (Go time.Duration), byte payloads as List Nat, and the broker and
its connection as explicit state threaded through the operations. Calls into
the external broker library (Ack, Nack, Config, CreateSubscription requests)
are recorded as explicit traces so that theorems can speak about which calls
were issued.
-/

namespace Gcppubsub

/-- timeSecond is Go's time.Second: one second in nanoseconds. -/
def timeSecond : Int := 1000000000

/-- timeMinute is Go's time.Minute: sixty seconds in nanoseconds. -/
def timeMinute : Int := 60 * timeSecond

/-- GoErr models Go error values as they appear in this package: errors.New
sentinels, fmt.Errorf wrapping, and broker-side errors surfaced by the
library (a not-found lookup failure, a connection failure). -/
inductive GoErr
  | errorsNew (msg : String)
  | wrapped (msg : String) (cause : GoErr)
  | notFound
  | connFailure
deriving DecidableEq, Repr

/-- Topic models the wrapper struct Topic: field t is the wrapped
library topic pointer, none when the pointer is nil; a non-nil library topic
is identified by its topic ID string. -/
structure Topic where
  t : Option String
deriving DecidableEq, Repr

/-- BrokerConn models the underlying broker connection held by the library
client. closeCount records how many times the connection's Close has been
invoked, so theorems can observe whether a wrapper call delegated to it. -/
structure BrokerConn where
  closeCount : Nat
deriving DecidableEq, Repr

/-- PubSubClient models the wrapper struct PubSubClient: field client is the
library client pointer, none when nil. -/
structure PubSubClient where
  client : Option BrokerConn
deriving DecidableEq, Repr

/-- NewPubSubClient embeds the constructor: an empty project ID fails with
errors.New, a failed broker connection fails with a wrapped error, and
otherwise the client holds a fresh (never-closed) connection. connOk stands
for whether the external pubsub.NewClient call succeeds. -/
def NewPubSubClient (projectID : String) (connOk : Bool) : Except GoErr PubSubClient :=
  if projectID = "" then .error (.errorsNew "project ID cannot be empty")
  else if connOk then .ok ⟨some ⟨0⟩⟩
  else .error (.wrapped "failed to create pubsub client" .connFailure)

/-- CloseAction records which branch of PubSubClient.Close ran: nilGuard is
the early return of nil when c.client == nil, delegated is the call to
c.client.Close() on the underlying connection. -/
inductive CloseAction
  | nilGuard
  | delegated
deriving DecidableEq, Repr

/-- PubSubClient.Close embeds the Close method: when the client field is nil
it returns nil without touching the connection; otherwise it calls the
underlying connection's Close. The source never clears the client field, so
the resulting state keeps the connection pointer with its close count
incremented. -/
def PubSubClient.Close (c : PubSubClient) : CloseAction × PubSubClient :=
  match c.client with
  | none => (.nilGuard, c)
  | some conn => (.delegated, ⟨some ⟨conn.closeCount + 1⟩⟩)

/-- PubSubClient.Topic embeds the Topic factory method: an empty topicID
yields a handle wrapping a nil library topic, otherwise the handle wraps the
library topic of that ID. Construction is pure: it takes no broker state and
issues no broker call. -/
def PubSubClient.Topic (_c : PubSubClient) (topicID : String) : Topic :=
  if topicID = "" then ⟨none⟩ else ⟨some topicID⟩

/-- Topic.Exists embeds the Exists method. config is the broker lookup
performed by topic.Config(ctx), returning none on success and some error on
failure; the method returns the pair (err == nil, err). A nil handle returns
(false, nil) without consulting the broker. -/
def Topic.Exists (t : Topic) (config : String → Option GoErr) : Bool × Option GoErr :=
  match t.t with
  | none => (false, none)
  | some id => ((config id).isNone, config id)

/-- Topic.Publish embeds the Publish method. pub is the external
publish-and-await-result call (t.t.Publish followed by result.Get) applied
to the topic ID and the message's data and attributes, returning the
broker-assigned message ID or an error. A nil handle fails with errors.New
without consulting the broker; a broker error is wrapped with fmt.Errorf. -/
def Topic.Publish (t : Topic)
    (pub : String → List Nat → List (String × String) → Except GoErr String)
    (data : List Nat) (attrs : List (String × String)) : Except GoErr String :=
  match t.t with
  | none => .error (.errorsNew "invalid topic")
  | some id =>
      match pub id data attrs with
      | .error e => .error (.wrapped "failed to publish message" e)
      | .ok msgID => .ok msgID

/-- PubsubMessage models the library message (pubsub.Message) as delivered to
the receive callback: the DeliveryAttempt field is a pointer, none when the
broker did not supply a delivery attempt. PublishTime is unix nanoseconds. -/
structure PubsubMessage where
  ID : String
  Data : List Nat
  Attributes : List (String × String)
  PublishTime : Int
  DeliveryAttempt : Option Int
deriving DecidableEq, Repr

/-- Message models the wrapper struct Message handed to the caller's handler:
its DeliveryAttempt is a plain integer obtained by dereferencing the library
message's pointer. -/
structure Message where
  ID : String
  Data : List Nat
  Attributes : List (String × String)
  PublishTime : Int
  DeliveryAttempt : Int
deriving DecidableEq, Repr

/-- mkMessage is the struct literal inside the receive callback that converts
the library message into the wrapper Message, given the dereferenced
delivery-attempt value n. -/
def mkMessage (m : PubsubMessage) (n : Int) : Message :=
  ⟨m.ID, m.Data, m.Attributes, m.PublishTime, n⟩

/-- HandlerOutcome models the observable behaviour of one invocation of the
caller-supplied handler on a message: it returns nil, returns a non-nil
error, or panics with some value. -/
inductive HandlerOutcome
  | ok
  | fail (e : GoErr)
  | panics (v : String)
deriving DecidableEq, Repr

/-- Handler models the caller-supplied handler function, by its outcome on
each message. -/
abbrev Handler := Message → HandlerOutcome

/-- PanicValue distinguishes the two panics that can occur inside the receive
callback: the dereference of a nil DeliveryAttempt pointer, and a panic
raised by the caller's handler itself. -/
inductive PanicValue
  | nilDeref
  | fromHandler (v : String)
deriving DecidableEq, Repr

/-- BrokerCall records an Ack or Nack issued on the library message. -/
inductive BrokerCall
  | ack
  | nack
deriving DecidableEq, Repr

/-- LogEvent records the fmt.Printf in the deferred recover block, which
prints the recovered panic value together with debug.Stack(). -/
inductive LogEvent
  | panicWithStack (p : PanicValue)
deriving DecidableEq, Repr

/-- callbackBody embeds the body of the per-message receive callback, without
the deferred recover: first the struct literal dereferences the library
message's DeliveryAttempt pointer (a nil pointer panics here, before the
handler runs), then the handler is invoked and its error decides Nack or
Ack. The Bool records whether the handler was invoked; an Except.error is a
panic escaping the body uncaught. -/
def callbackBody (m : PubsubMessage) (f : Handler) :
    Bool × Except PanicValue (List BrokerCall) :=
  match m.DeliveryAttempt with
  | none => (false, .error .nilDeref)
  | some n =>
      match f (mkMessage m n) with
      | .ok => (true, .ok [.ack])
      | .fail _ => (true, .ok [.nack])
      | .panics v => (true, .error (.fromHandler v))

/-- CallbackRun is the observable result of one receive-callback invocation:
the Ack and Nack calls issued on the library message in order, the log events
emitted, and whether the caller's handler was invoked. -/
structure CallbackRun where
  calls : List BrokerCall
  logs : List LogEvent
  handlerInvoked : Bool
deriving DecidableEq, Repr

/-- receiveCallback embeds the full per-message callback passed to the
library receive, including the deferred recover: a body that completes
normally keeps its Ack or Nack, and a panic escaping the body is recovered
at the callback boundary, logged with its stack trace, and converted into a
Nack. The result is always an ordinary value: no panic propagates out of the
callback into the receive loop. -/
def receiveCallback (m : PubsubMessage) (f : Handler) : CallbackRun :=
  match callbackBody m f with
  | (inv, .ok calls) => ⟨calls, [], inv⟩
  | (inv, .error p) => ⟨[.nack], [.panicWithStack p], inv⟩

/-- ReceiveConfig embeds the wrapper's ReceiveConfig struct. -/
structure ReceiveConfig where
  Concurrency : Int
  EnableMessageOrdering : Bool
  MaxOutstandingMessages : Int
  MaxOutstandingBytes : Int
deriving DecidableEq, Repr

/-- emptyReceiveConfig is the zero value used when Receive is passed a nil
config. -/
def emptyReceiveConfig : ReceiveConfig := ⟨0, false, 0, 0⟩

/-- ReceiveSettings embeds the library's subscription ReceiveSettings fields
that the wrapper assigns. -/
structure ReceiveSettings where
  Synchronous : Bool
  NumGoroutines : Int
  MaxOutstandingMessages : Int
  MaxOutstandingBytes : Int
deriving DecidableEq, Repr

/-- applyReceiveConfig embeds the settings assignments at the top of
Subscription.Receive: Synchronous is forced to true, and each positive
config field overrides the corresponding setting. -/
def applyReceiveConfig (s : ReceiveSettings) (cfg0 : Option ReceiveConfig) : ReceiveSettings :=
  let cfg := cfg0.getD emptyReceiveConfig
  let s1 := { s with Synchronous := true }
  let s2 := if cfg.Concurrency > 0 then { s1 with NumGoroutines := cfg.Concurrency } else s1
  let s3 := if cfg.MaxOutstandingMessages > 0
    then { s2 with MaxOutstandingMessages := cfg.MaxOutstandingMessages } else s2
  if cfg.MaxOutstandingBytes > 0
    then { s3 with MaxOutstandingBytes := cfg.MaxOutstandingBytes } else s3

/-- LibSubscription models the external library subscription object shared
behind a wrapper handle. Modelled from the spec: the single-active-receive
state of the external Pub/Sub client library is not part of this repository;
per the specification, entry to Running occurs when Receive is invoked and
only one Receive invocation may be active per handle at a time. settings is
the mutable ReceiveSettings field; activeRun is the settings snapshot the
running loop started with, none when no receive loop is active. -/
structure LibSubscription where
  settings : ReceiveSettings
  activeRun : Option ReceiveSettings
deriving DecidableEq, Repr

/-- ReceiveErr models the errors the wrapper's Receive can return at entry:
the errors.New for a nil handle, and the external library's
receive-already-in-progress error. -/
inductive ReceiveErr
  | invalidSubscription
  | alreadyReceiving
deriving DecidableEq, Repr

/-- libReceive is the entry of the external library's Receive. Modelled from
the spec: a second concurrent call on a handle whose loop is active fails
with the already-receiving error and leaves the running loop untouched;
otherwise the loop starts, snapshotting the current settings. -/
def libReceive (ls : LibSubscription) : Option ReceiveErr × LibSubscription :=
  match ls.activeRun with
  | some _ => (some .alreadyReceiving, ls)
  | none => (none, { ls with activeRun := some ls.settings })

/-- Subscription models the wrapper struct Subscription: field s is the
wrapped library subscription pointer, none when nil. -/
structure Subscription where
  s : Option LibSubscription
deriving DecidableEq, Repr

/-- Subscription.Receive embeds the entry of the wrapper's Receive method:
nil-handle check, assignment of the receive settings on the shared library
subscription, then delegation to the library's Receive. -/
def Subscription.Receive (sub : Subscription) (cfg : Option ReceiveConfig) :
    Option ReceiveErr × Subscription :=
  match sub.s with
  | none => (some .invalidSubscription, sub)
  | some ls =>
      let ls1 := { ls with settings := applyReceiveConfig ls.settings cfg }
      let (e, ls2) := libReceive ls1
      (e, ⟨some ls2⟩)

/-- SubscriptionConfig embeds the wrapper's SubscriptionConfig struct.
AckDeadline, MinBackoff and MaxBackoff are durations in nanoseconds with 0
as the Go zero value; StartAtTime is unix nanoseconds with 0 modelling the
zero time.Time (IsZero). -/
structure SubscriptionConfig where
  Topic : Option Gcppubsub.Topic
  AckDeadline : Int
  MinBackoff : Int
  MaxBackoff : Int
  StartAtTime : Int
deriving DecidableEq, Repr

/-- RetryPolicy embeds the library's pubsub.RetryPolicy. -/
structure RetryPolicy where
  MinimumBackoff : Int
  MaximumBackoff : Int
deriving DecidableEq, Repr

/-- PubsubSubscriptionConfig embeds the fields of the library's
pubsub.SubscriptionConfig that CreateSubscription populates; zero values are
what the Go struct literal leaves when a field is not assigned. -/
structure PubsubSubscriptionConfig where
  Topic : String
  AckDeadline : Int
  RetentionDuration : Int
  RetryPolicy : Option RetryPolicy
deriving DecidableEq, Repr

/-- buildSubConfig embeds the construction of the library subscription config
inside CreateSubscription: start from a struct holding only the topic, copy
a positive AckDeadline, derive RetentionDuration from a non-zero StartAtTime
via time.Since (now minus the start time), and attach a RetryPolicy exactly
when at least one backoff is positive, filling the other side with the local
default of 10 seconds and 10 minutes respectively. -/
def buildSubConfig (topicID : String) (cfg : Option SubscriptionConfig) (now : Int) :
    PubsubSubscriptionConfig :=
  let base : PubsubSubscriptionConfig := ⟨topicID, 0, 0, none⟩
  match cfg with
  | none => base
  | some c =>
      let s1 := if c.AckDeadline > 0 then { base with AckDeadline := c.AckDeadline } else base
      let s2 := if c.StartAtTime ≠ 0
        then { s1 with RetentionDuration := now - c.StartAtTime } else s1
      if c.MinBackoff > 0 ∨ c.MaxBackoff > 0 then
        let minB := if c.MinBackoff > 0 then c.MinBackoff else 10 * timeSecond
        let maxB := if c.MaxBackoff > 0 then c.MaxBackoff else 10 * timeMinute
        { s2 with RetryPolicy := some ⟨minB, maxB⟩ }
      else s2

/-- effectiveAckDeadline gives the acknowledgment deadline the created
subscription ends up with. Modelled from the spec: the broker applies the
10-second default acknowledgment deadline when the creation request carries
no positive deadline; the broker itself is an external collaborator, not
code of this repository. -/
def effectiveAckDeadline (sc : PubsubSubscriptionConfig) : Int :=
  if sc.AckDeadline > 0 then sc.AckDeadline else 10 * timeSecond

/-- effectiveMinBackoff gives the minimum redelivery backoff the created
subscription ends up with. Modelled from the spec: when the creation request
carries no retry policy, the broker applies its default minimum backoff of
10 seconds. -/
def effectiveMinBackoff (sc : PubsubSubscriptionConfig) : Int :=
  match sc.RetryPolicy with
  | some rp => rp.MinimumBackoff
  | none => 10 * timeSecond

/-- effectiveMaxBackoff gives the maximum redelivery backoff the created
subscription ends up with. Modelled from the spec: when the creation request
carries no retry policy, the broker applies its default maximum backoff of
600 seconds. -/
def effectiveMaxBackoff (sc : PubsubSubscriptionConfig) : Int :=
  match sc.RetryPolicy with
  | some rp => rp.MaximumBackoff
  | none => 600 * timeSecond

/-- BrokerState is the broker-side state CreateSubscription interacts with:
the identifiers of the subscriptions that currently exist. The existence
probe sub.Exists(ctx) is modelled as a reliable membership test; its
broker-failure branch (which merely wraps and returns the probe error) is
not modelled. -/
structure BrokerState where
  subs : List String
deriving DecidableEq, Repr

/-- BrokerRequest records a mutation request issued to the broker: here, the
creation request carrying the subscription ID and the assembled
configuration. -/
inductive BrokerRequest
  | createSub (subID : String) (cfg : PubsubSubscriptionConfig)
deriving DecidableEq, Repr

/-- ErrSubscriptionExists is the package-level sentinel
errors.New("subscription already exists"). -/
def ErrSubscriptionExists : GoErr := .errorsNew "subscription already exists"

/-- ErrTopicNotFound is the package-level sentinel
errors.New("topic not found"). -/
def ErrTopicNotFound : GoErr := .errorsNew "topic not found"

/-- freshLibSubscription is the library subscription object wrapped by a
newly created handle: default settings, no receive loop active. -/
def freshLibSubscription : LibSubscription := ⟨⟨false, 0, 0, 0⟩, none⟩

/-- CreateOutcome is the observable result of one CreateSubscription call:
the returned value or error, the broker state afterwards, and the mutation
requests issued to the broker during the call. -/
structure CreateOutcome where
  res : Except GoErr Subscription
  state : BrokerState
  reqs : List BrokerRequest
deriving Repr

/-- PubSubClient.CreateSubscription embeds the CreateSubscription method:
reject an empty subscription ID with errors.New, reject a nil topic
argument or a topic handle wrapping a nil library topic, probe existence
with sub.Exists (probe gives the probe's error outcome; a failing probe
returns the wrapped error and issues no creation request, a successful
probe answers from the broker state), fail with the ErrSubscriptionExists
sentinel when the identifier already exists (before issuing any creation
request), and otherwise assemble the configuration with buildSubConfig and
issue the creation request to the broker (create gives that request's error
outcome; on failure the wrapped error is returned and the broker state is
unchanged, on success the new subscription exists and its handle is
returned). -/
def PubSubClient.CreateSubscription (st : BrokerState) (subID : String)
    (topic : Option Gcppubsub.Topic) (cfg : Option SubscriptionConfig) (now : Int)
    (probe : String → Option GoErr)
    (create : String → PubsubSubscriptionConfig → Option GoErr) :
    CreateOutcome :=
  if subID = "" then ⟨.error (.errorsNew "subscription ID cannot be empty"), st, []⟩
  else
    match topic with
    | none => ⟨.error (.errorsNew "topic cannot be nil"), st, []⟩
    | some t =>
        match t.t with
        | none => ⟨.error (.errorsNew "topic cannot be nil"), st, []⟩
        | some topicID =>
            match probe subID with
            | some e =>
                ⟨.error (.wrapped "failed to check subscription existence" e), st, []⟩
            | none =>
                if subID ∈ st.subs then ⟨.error ErrSubscriptionExists, st, []⟩
                else
                  let sc := buildSubConfig topicID cfg now
                  match create subID sc with
                  | some e =>
                      ⟨.error (.wrapped "failed to create subscription" e), st,
                        [.createSub subID sc]⟩
                  | none =>
                      ⟨.ok ⟨some freshLibSubscription⟩, ⟨subID :: st.subs⟩,
                        [.createSub subID sc]⟩

/-- ackUnset states that the wrapper config leaves the acknowledgment
deadline unset: the config is nil or the field carries the zero value. -/
def ackUnset : Option SubscriptionConfig → Bool
  | none => true
  | some c => c.AckDeadline == 0

/-- minBackoffUnset states that the wrapper config leaves the minimum
redelivery backoff unset. -/
def minBackoffUnset : Option SubscriptionConfig → Bool
  | none => true
  | some c => c.MinBackoff == 0

/-- maxBackoffUnset states that the wrapper config leaves the maximum
redelivery backoff unset. -/
def maxBackoffUnset : Option SubscriptionConfig → Bool
  | none => true
  | some c => c.MaxBackoff == 0

/- Theorems. -/

/-- Helper: the acknowledgment deadline field assembled by buildSubConfig is
the config's positive deadline, and the zero value otherwise. -/
theorem buildSubConfig_AckDeadline (topicID : String) (cfg : Option SubscriptionConfig)
    (now : Int) :
    (buildSubConfig topicID cfg now).AckDeadline =
      match cfg with
      | none => 0
      | some c => if c.AckDeadline > 0 then c.AckDeadline else 0 := by
  cases cfg with
  | none => rfl
  | some c =>
      simp only [buildSubConfig]
      split_ifs <;> rfl

/-- Helper: the retry policy assembled by buildSubConfig is present exactly
when at least one backoff is positive, with the 10 second and 10 minute
local defaults filling an absent side. -/
theorem buildSubConfig_RetryPolicy (topicID : String) (cfg : Option SubscriptionConfig)
    (now : Int) :
    (buildSubConfig topicID cfg now).RetryPolicy =
      match cfg with
      | none => none
      | some c =>
          if c.MinBackoff > 0 ∨ c.MaxBackoff > 0 then
            some ⟨if c.MinBackoff > 0 then c.MinBackoff else 10 * timeSecond,
                  if c.MaxBackoff > 0 then c.MaxBackoff else 10 * timeMinute⟩
          else none := by
  cases cfg with
  | none => rfl
  | some c =>
      simp only [buildSubConfig]
      split_ifs <;> rfl

/-- Helper: ten minutes is six hundred seconds. -/
theorem ten_timeMinute_eq : 10 * timeMinute = 600 * timeSecond := by
  norm_num [timeMinute, timeSecond]

/-- C1: for a message whose delivery-attempt pointer is present, the receive
callback resolves the message exactly as the handler's result dictates: a
nil return issues exactly the Ack call, a non-nil error issues exactly the
Nack call, and in every case exactly one resolution call is issued. -/
theorem handler_result_drives_ack_nack (m : PubsubMessage) (f : Handler) (n : Int)
    (hda : m.DeliveryAttempt = some n) :
    (f (mkMessage m n) = .ok → receiveCallback m f = ⟨[.ack], [], true⟩) ∧
    (∀ e, f (mkMessage m n) = .fail e → receiveCallback m f = ⟨[.nack], [], true⟩) ∧
    (receiveCallback m f).calls.length = 1 := by
  rcases hf : f (mkMessage m n) with _ | e | v <;>
    simp [receiveCallback, callbackBody, hda, hf]

/-- C1 witness: the theorem applied at a concrete message and the handler
that always returns nil. -/
theorem handler_result_drives_ack_nack_witness :
    receiveCallback ⟨"m1", [1, 2], [], 5, some 1⟩ (fun _ => .ok) = ⟨[.ack], [], true⟩ :=
  (handler_result_drives_ack_nack ⟨"m1", [1, 2], [], 5, some 1⟩ (fun _ => .ok) 1 rfl).1 rfl

/-- C2: a panic raised by the handler escapes the callback body uncaught and
is converted by the deferred recover at the callback boundary into a Nack,
together with a log entry carrying the panic value and its stack trace; the
callback returns an ordinary result, so the panic does not propagate into
the receive loop. -/
theorem handler_panic_contained (m : PubsubMessage) (f : Handler) (n : Int) (v : String)
    (hda : m.DeliveryAttempt = some n) (hp : f (mkMessage m n) = .panics v) :
    callbackBody m f = (true, .error (.fromHandler v)) ∧
    receiveCallback m f = ⟨[.nack], [.panicWithStack (.fromHandler v)], true⟩ := by
  simp [receiveCallback, callbackBody, hda, hp]

/-- C2 witness: the theorem applied at a concrete message and a handler that
always panics. -/
theorem handler_panic_contained_witness :
    receiveCallback ⟨"m2", [], [], 7, some 3⟩ (fun _ => .panics "boom")
      = ⟨[.nack], [.panicWithStack (.fromHandler "boom")], true⟩ :=
  (handler_panic_contained ⟨"m2", [], [], 7, some 3⟩ (fun _ => .panics "boom") 3 "boom"
    rfl rfl).2

/-- C9: when the delivered message carries no delivery-attempt value, the
struct-literal dereference panics before the handler is invoked; the
deferred recover converts the panic into a Nack, the handler is never
called, and no Ack is ever issued for such a message, whatever the handler
would have done. -/
theorem nil_delivery_attempt_always_nacked (m : PubsubMessage) (f : Handler)
    (hda : m.DeliveryAttempt = none) :
    receiveCallback m f = ⟨[.nack], [.panicWithStack .nilDeref], false⟩ := by
  simp [receiveCallback, callbackBody, hda]

/-- C9 witness: the theorem applied at a concrete message with an absent
delivery attempt and a handler that would have succeeded. -/
theorem nil_delivery_attempt_always_nacked_witness :
    receiveCallback ⟨"m3", [9], [], 1, none⟩ (fun _ => .ok)
      = ⟨[.nack], [.panicWithStack .nilDeref], false⟩ :=
  nil_delivery_attempt_always_nacked ⟨"m3", [9], [], 1, none⟩ (fun _ => .ok) rfl

/-- C3: for a creation call that passes the argument checks and whose
existence probe succeeds and reports absence, the configuration issued to
the broker is the one assembled by buildSubConfig (whether or not the
creation request itself then succeeds), and every field the wrapper config
leaves unset ends up at its documented default on the created subscription:
acknowledgment deadline 10 seconds, minimum redelivery backoff 10 seconds,
maximum redelivery backoff 600 seconds (including the nil-config case). -/
theorem createSubscription_applies_defaults (st : BrokerState) (subID topicID : String)
    (cfg : Option SubscriptionConfig) (now : Int)
    (probe : String → Option GoErr)
    (create : String → PubsubSubscriptionConfig → Option GoErr)
    (hne : subID ≠ "") (hprobe : probe subID = none) (hnm : subID ∉ st.subs) :
    (PubSubClient.CreateSubscription st subID (some ⟨some topicID⟩) cfg now probe create).reqs
        = [.createSub subID (buildSubConfig topicID cfg now)] ∧
    (ackUnset cfg = true →
        effectiveAckDeadline (buildSubConfig topicID cfg now) = 10 * timeSecond) ∧
    (minBackoffUnset cfg = true →
        effectiveMinBackoff (buildSubConfig topicID cfg now) = 10 * timeSecond) ∧
    (maxBackoffUnset cfg = true →
        effectiveMaxBackoff (buildSubConfig topicID cfg now) = 600 * timeSecond) := by
  have hA := buildSubConfig_AckDeadline topicID cfg now
  have hR := buildSubConfig_RetryPolicy topicID cfg now
  refine ⟨?_, ?_, ?_, ?_⟩
  · rcases hcr : create subID (buildSubConfig topicID cfg now) with _ | e <;>
      simp [PubSubClient.CreateSubscription, hne, hprobe, hnm, hcr]
  · intro hu
    cases cfg with
    | none => simp [effectiveAckDeadline, hA]
    | some c =>
        have hz : c.AckDeadline = 0 := by simpa [ackUnset] using hu
        simp [effectiveAckDeadline, hA, hz]
  · intro hu
    cases cfg with
    | none => simp [effectiveMinBackoff, hR]
    | some c =>
        have hz : c.MinBackoff = 0 := by simpa [minBackoffUnset] using hu
        by_cases hmax : c.MaxBackoff > 0
        · simp [effectiveMinBackoff, hR, hz, hmax]
        · simp [effectiveMinBackoff, hR, hz, hmax]
  · intro hu
    cases cfg with
    | none => simp [effectiveMaxBackoff, hR]
    | some c =>
        have hz : c.MaxBackoff = 0 := by simpa [maxBackoffUnset] using hu
        by_cases hmin : c.MinBackoff > 0
        · simp [effectiveMaxBackoff, hR, hz, hmin, ten_timeMinute_eq]
        · simp [effectiveMaxBackoff, hR, hz, hmin]

/-- C3 witness: the theorem applied at a fresh broker, a nil wrapper config
and oracles on which the probe and the creation request succeed. -/
theorem createSubscription_applies_defaults_witness :
    (PubSubClient.CreateSubscription ⟨[]⟩ "orders-worker-1" (some ⟨some "orders"⟩) none 0
        (fun _ => none) (fun _ _ => none)).reqs
        = [.createSub "orders-worker-1" (buildSubConfig "orders" none 0)] ∧
    effectiveAckDeadline (buildSubConfig "orders" none 0) = 10 * timeSecond ∧
    effectiveMinBackoff (buildSubConfig "orders" none 0) = 10 * timeSecond ∧
    effectiveMaxBackoff (buildSubConfig "orders" none 0) = 600 * timeSecond := by
  have h := createSubscription_applies_defaults ⟨[]⟩ "orders-worker-1" "orders" none 0
    (fun _ => none) (fun _ _ => none) (by decide) rfl (by simp)
  exact ⟨h.1, h.2.1 rfl, h.2.2.1 rfl, h.2.2.2 rfl⟩

/-- C4: a creation call that passes the argument checks and whose existence
probe succeeds and reports presence fails with the ErrSubscriptionExists
sentinel, leaves the broker state unchanged and issues no creation
request. -/
theorem createSubscription_exists_no_mutation (st : BrokerState) (subID topicID : String)
    (cfg : Option SubscriptionConfig) (now : Int)
    (probe : String → Option GoErr)
    (create : String → PubsubSubscriptionConfig → Option GoErr)
    (hne : subID ≠ "") (hprobe : probe subID = none) (hmem : subID ∈ st.subs) :
    PubSubClient.CreateSubscription st subID (some ⟨some topicID⟩) cfg now probe create
      = ⟨.error ErrSubscriptionExists, st, []⟩ := by
  simp [PubSubClient.CreateSubscription, hne, hprobe, hmem]

/-- C4 witness: the theorem applied at a broker already holding the
identifier, with a succeeding probe. -/
theorem createSubscription_exists_no_mutation_witness :
    PubSubClient.CreateSubscription ⟨["orders-worker-1"]⟩ "orders-worker-1"
        (some ⟨some "orders"⟩) none 0 (fun _ => none) (fun _ _ => none)
      = ⟨.error ErrSubscriptionExists, ⟨["orders-worker-1"]⟩, []⟩ :=
  createSubscription_exists_no_mutation ⟨["orders-worker-1"]⟩ "orders-worker-1" "orders"
    none 0 (fun _ => none) (fun _ _ => none) (by decide) rfl (by simp)

/-- A failing existence probe short-circuits CreateSubscription: the wrapped
probe error is returned, the broker state is unchanged and no creation
request is issued, whatever the broker holds. -/
theorem createSubscription_probe_error_no_request (st : BrokerState)
    (subID topicID : String) (cfg : Option SubscriptionConfig) (now : Int)
    (probe : String → Option GoErr)
    (create : String → PubsubSubscriptionConfig → Option GoErr) (e : GoErr)
    (hne : subID ≠ "") (hprobe : probe subID = some e) :
    PubSubClient.CreateSubscription st subID (some ⟨some topicID⟩) cfg now probe create
      = ⟨.error (.wrapped "failed to check subscription existence" e), st, []⟩ := by
  simp [PubSubClient.CreateSubscription, hne, hprobe]

/-- C5 (code-bug evidence): Close taken twice on a freshly constructed
client. The first call delegates to the underlying connection's Close;
because Close never clears the client field, its nil guard cannot fire on
the second call, which takes the delegated branch again and invokes the
underlying connection's Close a second time (close count 2) instead of
being the no-op the claim describes. -/
theorem close_second_call_delegates_again :
    NewPubSubClient "demo-project" true = .ok ⟨some ⟨0⟩⟩ ∧
    PubSubClient.Close ⟨some ⟨0⟩⟩ = (.delegated, ⟨some ⟨1⟩⟩) ∧
    PubSubClient.Close ⟨some ⟨1⟩⟩ = (.delegated, ⟨some ⟨2⟩⟩) := by
  refine ⟨?_, rfl, rfl⟩
  simp [NewPubSubClient]

/-- C6: an empty topicID yields the nil handle by pure construction (the
result involves no broker interaction); Exists on it answers false with a
nil error for every broker lookup, and Publish on it fails with the
invalid-topic error for every broker publish function, again without
consulting the broker. -/
theorem empty_topic_handle_deferred_validation (c : PubSubClient)
    (config : String → Option GoErr)
    (pub : String → List Nat → List (String × String) → Except GoErr String)
    (data : List Nat) (attrs : List (String × String)) :
    PubSubClient.Topic c "" = ⟨none⟩ ∧
    Topic.Exists (PubSubClient.Topic c "") config = (false, none) ∧
    Topic.Publish (PubSubClient.Topic c "") pub data attrs
      = .error (.errorsNew "invalid topic") :=
  ⟨rfl, rfl, rfl⟩

/-- C8: calling Receive on a handle whose shared library subscription
already has an active receive loop fails with the already-receiving error,
and the running loop's settings snapshot is untouched: the call only
reassigned the shared settings field before the library guard rejected it. -/
theorem second_receive_already_receiving (ls : LibSubscription) (cfg : Option ReceiveConfig)
    (run : ReceiveSettings) (hrun : ls.activeRun = some run) :
    (Subscription.Receive ⟨some ls⟩ cfg).1 = some .alreadyReceiving ∧
    (Subscription.Receive ⟨some ls⟩ cfg).2
      = ⟨some { ls with settings := applyReceiveConfig ls.settings cfg }⟩ ∧
    ({ ls with settings := applyReceiveConfig ls.settings cfg }).activeRun = some run := by
  simp [Subscription.Receive, libReceive, hrun]

/-- C8 witness: the theorem applied at a concrete subscription whose loop is
running. -/
theorem second_receive_already_receiving_witness :
    (Subscription.Receive ⟨some ⟨⟨false, 0, 0, 0⟩, some ⟨true, 1, 1000, 1000000000⟩⟩⟩ none).1
      = some ReceiveErr.alreadyReceiving :=
  (second_receive_already_receiving ⟨⟨false, 0, 0, 0⟩, some ⟨true, 1, 1000, 1000000000⟩⟩
    none ⟨true, 1, 1000, 1000000000⟩ rfl).1

/-- C10: for a valid handle, Exists returns exactly the pair (err == nil,
err) of the broker configuration lookup: a true first component forces a
nil second component, and a failing lookup (in particular the broker's
not-found error) yields false together with that non-nil error, never
(false, nil). -/
theorem topic_exists_error_pair (id : String) (config : String → Option GoErr) :
    Topic.Exists ⟨some id⟩ config = ((config id).isNone, config id) ∧
    ((Topic.Exists ⟨some id⟩ config).1 = true → (Topic.Exists ⟨some id⟩ config).2 = none) ∧
    (∀ e, config id = some e → Topic.Exists ⟨some id⟩ config = (false, some e)) := by
  refine ⟨rfl, ?_, ?_⟩
  · intro h1
    cases hc : config id <;> simp [Topic.Exists, hc] at h1 ⊢
  · intro e he
    simp [Topic.Exists, he]

/-- C10 witness: the theorem applied at a concrete topic whose broker lookup
fails with the not-found error. -/
theorem topic_exists_error_pair_witness :
    Topic.Exists ⟨some "orders"⟩ (fun _ => some GoErr.notFound)
      = (false, some GoErr.notFound) :=
  (topic_exists_error_pair "orders" (fun _ => some GoErr.notFound)).2.2 GoErr.notFound rfl

/-- Receive never reads EnableMessageOrdering: the settings it installs are
identical whatever the flag's value. -/
theorem applyReceiveConfig_ignores_ordering (s : ReceiveSettings) (cfg : ReceiveConfig)
    (b : Bool) :
    applyReceiveConfig s (some { cfg with EnableMessageOrdering := b })
      = applyReceiveConfig s (some cfg) := rfl

/-- The whole entry of the wrapper's Receive is invariant under the
EnableMessageOrdering flag. -/
theorem receive_ignores_ordering_flag (sub : Subscription) (cfg : ReceiveConfig) (b : Bool) :
    Subscription.Receive sub (some { cfg with EnableMessageOrdering := b })
      = Subscription.Receive sub (some cfg) := by
  rcases sub with ⟨_ | ls⟩ <;> rfl

end Gcppubsub
